import Mathlib

/-!
# Verification of the BGRemover mask/viewport engine

Shallow embedding of the core of `src/BGRemover.py`: the viewport
zoom/pan geometry, the working-mask history (undo/redo), the
add/subtract/paint mask algebra, the slider → threshold mapping, the
shadow/background caches and the export validation.  Python floats are
modelled as exact rationals (`ℚ`); 8-bit mask pixels as `ℕ` values in
`[0,255]`; PIL images as a dimensioned pixel function.
-/

namespace BGRemover

/-! ## Pixel buffers

A PIL `L`-mode image: width, height and a pixel function.  Pixels
outside `[0,w) × [0,h)` are irrelevant to every operation modelled
here; operations are defined pointwise exactly as PIL computes them. -/

structure Mask where
  w : ℕ
  h : ℕ
  px : ℕ → ℕ → ℕ

/-- PIL `Image.new("L", (w,h), color=0)` — the all-zero (empty) mask. -/
def zeroMask (w h : ℕ) : Mask := ⟨w, h, fun _ _ => 0⟩

/-- PIL `Image.new("L", (w,h), color=255)` — the all-white (full) mask. -/
def fullMask (w h : ℕ) : Mask := ⟨w, h, fun _ _ => 255⟩

/-- PIL `ImageChops.add(a, b)`: per-pixel saturating addition, clipped at 255. -/
def imageChopsAdd (a b : Mask) : Mask :=
  ⟨a.w, a.h, fun x y => min (a.px x y + b.px x y) 255⟩

/-- PIL `ImageChops.subtract(a, b)`: per-pixel subtraction, clipped at 0
(`ℕ` subtraction is exactly the clipped difference). -/
def imageChopsSubtract (a b : Mask) : Mask :=
  ⟨a.w, a.h, fun x y => a.px x y - b.px x y⟩

/-- Python `int(q)`: truncation toward zero (floor for non-negative,
ceiling for negative arguments). -/
def pyInt (q : ℚ) : ℤ := if 0 ≤ q then ⌊q⌋ else ⌈q⌉

/-! ## ViewportTransform (`do_pan` / `zoom`)

`DEFAULT_ZOOM_FACTOR = 1.2`, `MAX_ZOOM_FACTOR = 50.0` (source lines
41–42).  Floats are modelled as rationals, so `1.2 = 6/5`. -/

def DEFAULT_ZOOM_FACTOR : ℚ := 6/5
def MAX_ZOOM_FACTOR : ℚ := 50

/-- Session-fixed viewport parameters: image size `(W, H)`, canvas size
`(cw, ch)` and `lowest_zoom_factor` (the fit zoom). -/
structure ViewParams where
  W : ℚ
  H : ℚ
  cw : ℚ
  ch : ℚ
  lowest : ℚ

/-- Mutable viewport state: `zoom_factor`, `view_x`, `view_y`. -/
structure ViewState where
  zoom : ℚ
  vx : ℚ
  vy : ℚ

/-- Source `do_pan(dx, dy)`:
`view_x = max(0, min(view_x + dx, W - canvas_w / zoom_factor))`, and the
same for `view_y`. -/
def doPan (P : ViewParams) (v : ViewState) (dx dy : ℚ) : ViewState :=
  { zoom := v.zoom
    vx := max 0 (min (v.vx + dx) (P.W - P.cw / v.zoom))
    vy := max 0 (min (v.vy + dy) (P.H - P.ch / v.zoom)) }

/-- Source `zoom(event)`: cursor-anchored zoom.  `zin = true` is the wheel-up
branch (`new = zoom * 1.2` accepted only if `≤ MAX_ZOOM_FACTOR`),
`zin = false` the wheel-down branch
(`new = max(zoom / 1.2, lowest_zoom_factor)`); afterwards the view
origin is re-clamped so the image point under the cursor stays put. -/
def zoomApply (P : ViewParams) (v : ViewState) (zin : Bool) (ex ey : ℚ) : ViewState :=
  let mouseX := v.vx + ex / v.zoom
  let mouseY := v.vy + ey / v.zoom
  let z :=
    if zin then
      if v.zoom * DEFAULT_ZOOM_FACTOR ≤ MAX_ZOOM_FACTOR then v.zoom * DEFAULT_ZOOM_FACTOR
      else v.zoom
    else max (v.zoom / DEFAULT_ZOOM_FACTOR) P.lowest
  { zoom := z
    vx := max 0 (min (mouseX - ex / z) (P.W - P.cw / z))
    vy := max 0 (min (mouseY - ey / z) (P.H - P.ch / z)) }

/-- One user viewport operation: zoom in, zoom out (each at some cursor
position) or pan by a delta. -/
inductive ViewOp where
  | zoomIn (ex ey : ℚ)
  | zoomOut (ex ey : ℚ)
  | pan (dx dy : ℚ)

def viewStep (P : ViewParams) (v : ViewState) : ViewOp → ViewState
  | .zoomIn ex ey => zoomApply P v true ex ey
  | .zoomOut ex ey => zoomApply P v false ex ey
  | .pan dx dy => doPan P v dx dy

def runViewOps (P : ViewParams) (v : ViewState) (ops : List ViewOp) : ViewState :=
  ops.foldl (viewStep P) v

/-- The viewport invariant claimed by the spec:
`lowest ≤ zoom ≤ 50` and the view origin clamped into the (possibly
collapsed) valid range. -/
def viewInv (P : ViewParams) (v : ViewState) : Prop :=
  P.lowest ≤ v.zoom ∧ v.zoom ≤ MAX_ZOOM_FACTOR ∧
  0 ≤ v.vx ∧ v.vx ≤ max 0 (P.W - P.cw / v.zoom) ∧
  0 ≤ v.vy ∧ v.vy ≤ max 0 (P.H - P.ch / v.zoom)

lemma clamp_nonneg (x b : ℚ) : 0 ≤ max 0 (min x b) := le_max_left 0 _

lemma clamp_le (x b : ℚ) : max 0 (min x b) ≤ max 0 b :=
  max_le_max le_rfl (min_le_right x b)

lemma viewStep_inv (P : ViewParams) (hl : 0 < P.lowest) (v : ViewState)
    (hv : viewInv P v) (op : ViewOp) : viewInv P (viewStep P v op) := by
  obtain ⟨h1, h2, _, _, _, _⟩ := hv
  cases op with
  | pan dx dy =>
      exact ⟨h1, h2, clamp_nonneg _ _, clamp_le _ _, clamp_nonneg _ _, clamp_le _ _⟩
  | zoomIn ex ey =>
      unfold viewStep zoomApply
      by_cases hz : v.zoom * DEFAULT_ZOOM_FACTOR ≤ MAX_ZOOM_FACTOR
      · refine ⟨?_, ?_, clamp_nonneg _ _, clamp_le _ _, clamp_nonneg _ _, clamp_le _ _⟩
        · simp only [hz, if_true]
          calc P.lowest ≤ v.zoom := h1
            _ ≤ v.zoom * DEFAULT_ZOOM_FACTOR := by
                have hz0 : (0:ℚ) < v.zoom := hl.trans_le h1
                unfold DEFAULT_ZOOM_FACTOR
                nlinarith
        · simp [hz]
      · exact ⟨by simpa [hz] using h1, by simpa [hz] using h2,
          clamp_nonneg _ _, clamp_le _ _, clamp_nonneg _ _, clamp_le _ _⟩
  | zoomOut ex ey =>
      refine ⟨le_max_right _ _, ?_, clamp_nonneg _ _, clamp_le _ _,
        clamp_nonneg _ _, clamp_le _ _⟩
      have hz0 : 0 < v.zoom := hl.trans_le h1
      have : v.zoom / DEFAULT_ZOOM_FACTOR ≤ v.zoom := by
        rw [div_le_iff₀ (by norm_num [DEFAULT_ZOOM_FACTOR])]
        unfold DEFAULT_ZOOM_FACTOR
        nlinarith
      exact max_le (this.trans h2) (h1.trans h2)

lemma runViewOps_inv (P : ViewParams) (hl : 0 < P.lowest) (ops : List ViewOp)
    (v : ViewState) (hv : viewInv P v) : viewInv P (runViewOps P v ops) := by
  induction ops generalizing v with
  | nil => exact hv
  | cons op ops ih => exact ih _ (viewStep_inv P hl v hv op)

/-- C4: After any sequence of zoom-in, zoom-out and pan operations
(starting from a state satisfying the viewport invariant), the zoom
factor satisfies `lowest_fit_zoom ≤ zoom ≤ 50` and the view origin lies
in `[0, max 0 (W - canvas_w/zoom)] × [0, max 0 (H - canvas_h/zoom)]`;
in the degenerate case `canvas_w/zoom ≥ W` the valid range collapses
and the clamp yields exactly `0` (rationals model the floats, so no NaN
can arise and the `max 0 (min · ·)` clamp never inverts). -/
theorem view_invariant_preserved (P : ViewParams) (hl : 0 < P.lowest)
    (ops : List ViewOp) (v : ViewState) (hv : viewInv P v) :
    viewInv P (runViewOps P v ops) ∧
    (P.W ≤ P.cw / (runViewOps P v ops).zoom → (runViewOps P v ops).vx = 0) ∧
    (P.H ≤ P.ch / (runViewOps P v ops).zoom → (runViewOps P v ops).vy = 0) := by
  have hinv := runViewOps_inv P hl ops v hv
  obtain ⟨_, _, hx0, hx1, hy0, hy1⟩ := hinv
  refine ⟨runViewOps_inv P hl ops v hv, fun hW => le_antisymm ?_ hx0,
    fun hH => le_antisymm ?_ hy0⟩
  · have : max 0 (P.W - P.cw / (runViewOps P v ops).zoom) = 0 :=
      max_eq_left (by linarith)
    simpa [this] using hx1
  · have : max 0 (P.H - P.ch / (runViewOps P v ops).zoom) = 0 :=
      max_eq_left (by linarith)
    simpa [this] using hy1

/-- Witness for `view_invariant_preserved` at a concrete viewport:
a 100×80 image on a 50×40 canvas (fit zoom 1/2), zoom in at the cursor,
pan, zoom out. -/
theorem view_invariant_preserved_witness :
    viewInv ⟨100, 80, 50, 40, 1/2⟩ ⟨1/2, 0, 0⟩ ∧
    viewInv ⟨100, 80, 50, 40, 1/2⟩
      (runViewOps ⟨100, 80, 50, 40, 1/2⟩ ⟨1/2, 0, 0⟩
        [.zoomIn 10 10, .pan 5 3, .zoomOut 0 0]) := by
  have h0 : viewInv ⟨100, 80, 50, 40, 1/2⟩ ⟨1/2, 0, 0⟩ := by
    constructor
    · norm_num
    constructor
    · norm_num [MAX_ZOOM_FACTOR]
    refine ⟨le_refl 0, ?_, le_refl 0, ?_⟩ <;> norm_num
  exact ⟨h0, (view_invariant_preserved ⟨100, 80, 50, 40, 1/2⟩ (by norm_num)
    [.zoomIn 10 10, .pan 5 3, .zoomOut 0 0] ⟨1/2, 0, 0⟩ h0).1⟩

/-- C9: Starting at `zoom = lowest_fit_zoom`, one zoom-in step
followed by one zoom-out step (fixed multiplier 1.2, the zoom-out
clamped below by `lowest_fit_zoom`) returns the zoom factor to
`lowest_fit_zoom` exactly (floats modelled as exact rationals). -/
theorem zoom_in_out_roundtrip (P : ViewParams) (hl : 0 ≤ P.lowest)
    (v : ViewState) (hz : v.zoom = P.lowest) (ex ey ex' ey' : ℚ) :
    (viewStep P (viewStep P v (.zoomIn ex ey)) (.zoomOut ex' ey')).zoom = P.lowest := by
  have step1 : (viewStep P v (.zoomIn ex ey)).zoom =
      if v.zoom * DEFAULT_ZOOM_FACTOR ≤ MAX_ZOOM_FACTOR then
        v.zoom * DEFAULT_ZOOM_FACTOR else v.zoom := by
    simp [viewStep, zoomApply]
  have step2 : ∀ w : ViewState, (viewStep P w (.zoomOut ex' ey')).zoom =
      max (w.zoom / DEFAULT_ZOOM_FACTOR) P.lowest := by
    intro w
    simp [viewStep, zoomApply]
  rw [step2, step1]
  by_cases h : v.zoom * DEFAULT_ZOOM_FACTOR ≤ MAX_ZOOM_FACTOR
  · rw [if_pos h, hz, mul_div_assoc, div_self (by norm_num [DEFAULT_ZOOM_FACTOR]),
      mul_one, max_self]
  · rw [if_neg h, hz]
    refine max_eq_right ?_
    rw [div_le_iff₀ (by norm_num [DEFAULT_ZOOM_FACTOR])]
    unfold DEFAULT_ZOOM_FACTOR
    nlinarith

/-- Witness for `zoom_in_out_roundtrip` at the concrete fit zoom 1/2. -/
theorem zoom_in_out_roundtrip_witness :
    (viewStep ⟨100, 80, 50, 40, 1/2⟩
      (viewStep ⟨100, 80, 50, 40, 1/2⟩ ⟨1/2, 0, 0⟩ (.zoomIn 3 4))
      (.zoomOut 7 8)).zoom = (1:ℚ)/2 :=
  zoom_in_out_roundtrip ⟨100, 80, 50, 40, 1/2⟩ (by norm_num) ⟨1/2, 0, 0⟩ rfl 3 4 7 8

/-! ## AIMaskAdapter: slider → threshold mapping
(`on_unified_slider_change`, `update_mask_threshold`,
`update_sam_threshold`) -/

/-- Source `on_unified_slider_change`, whole-image branch:
`t = 1.0 - val/100.0`; `whole_val = int(min_thresh + t * (max_thresh -
min_thresh))` with `min_thresh = 10`, `max_thresh = 250`. -/
def sliderToWholeThreshold (s : ℚ) : ℤ :=
  pyInt (10 + (1 - s / 100) * (250 - 10))

/-- Source `on_unified_slider_change`, SAM branch:
`sam_val = min_sam + t * (max_sam - min_sam)` with `min_sam = -3.0`,
`max_sam = 2.0` and `t = 1.0 - val/100.0`. -/
def sliderToSamThreshold (s : ℚ) : ℚ :=
  -3 + (1 - s / 100) * (2 - (-3))

/-- Source `update_mask_threshold`: the binary preview mask
`raw_model_mask.point(lambda p: 255 if p > threshold else 0)`. -/
def updateMaskThresholdMask (raw : Mask) (threshold : ℤ) : Mask :=
  ⟨raw.w, raw.h, fun x y => if threshold < (raw.px x y : ℤ) then 255 else 0⟩

/-- Source `update_sam_threshold` binarization of one logit:
`mask_binary[current_mask > threshold] = 255`, else 0. -/
def samBinaryPixel (logit threshold : ℚ) : ℕ :=
  if threshold < logit then 255 else 0

lemma pyInt_eq_floor (q : ℚ) (h : 0 ≤ q) : pyInt q = ⌊q⌋ := if_pos h

lemma wholeFormula_nonneg (s : ℚ) (h : s ≤ 100) :
    0 ≤ 10 + (1 - s / 100) * (250 - 10) := by nlinarith

lemma updateMaskThresholdMask_px_iff (raw : Mask) (t : ℤ) (x y : ℕ) :
    (updateMaskThresholdMask raw t).px x y = 255 ↔ t < (raw.px x y : ℤ) := by
  unfold updateMaskThresholdMask
  by_cases hc : t < (raw.px x y : ℤ) <;> simp [hc]

lemma samBinaryPixel_eq_iff (l t : ℚ) : samBinaryPixel l t = 255 ↔ t < l := by
  unfold samBinaryPixel
  by_cases hc : t < l <;> simp [hc]

/-- C7: The slider-to-threshold mapping equals the spec's formulas:
for `s ∈ [0,100]` the whole-image binary mask includes exactly the raw
pixels with value `> 10 + (1 - s/100) * 240`, and the SAM threshold is
`-3 + (1 - s/100) * 5` with the binary mask including exactly the
logits `>` that threshold. -/
theorem slider_threshold_formulas (s : ℚ) (h1 : 0 ≤ s) (h2 : s ≤ 100) :
    (∀ raw : Mask, ∀ x y : ℕ,
      (updateMaskThresholdMask raw (sliderToWholeThreshold s)).px x y = 255 ↔
        10 + (1 - s / 100) * 240 < (raw.px x y : ℚ)) ∧
    sliderToSamThreshold s = -3 + (1 - s / 100) * 5 ∧
    (∀ logit : ℚ,
      samBinaryPixel logit (sliderToSamThreshold s) = 255 ↔
        -3 + (1 - s / 100) * 5 < logit) := by
  have hsam : sliderToSamThreshold s = -3 + (1 - s / 100) * 5 := by
    unfold sliderToSamThreshold
    norm_num
  refine ⟨fun raw x y => ?_, hsam, fun logit => ?_⟩
  · rw [updateMaskThresholdMask_px_iff]
    unfold sliderToWholeThreshold
    rw [pyInt_eq_floor _ (wholeFormula_nonneg s h2), Int.floor_lt]
    push_cast
    constructor <;> intro <;> linarith
  · rw [samBinaryPixel_eq_iff, hsam]

/-- Witness for `slider_threshold_formulas` at slider value `s = 50`:
the threshold is `int(10 + 0.5·240) = 130`, a raw pixel of 200 is
included and a logit of 0 is included against the SAM threshold `-1/2`. -/
theorem slider_threshold_formulas_witness :
    (0:ℚ) ≤ 50 ∧ (50:ℚ) ≤ 100 ∧
    ((updateMaskThresholdMask ⟨1, 1, fun _ _ => 200⟩
        (sliderToWholeThreshold 50)).px 0 0 = 255 ↔
      10 + (1 - (50:ℚ) / 100) * 240 < (200:ℚ)) := by
  refine ⟨by norm_num, by norm_num, ?_⟩
  exact (slider_threshold_formulas 50 (by norm_num) (by norm_num)).1
    ⟨1, 1, fun _ _ => 200⟩ 0 0

/-- C6: In whole-image mode, for a fixed raw map and slider values
`s1 ≤ s2` in `[0,100]`, every pixel included in the binary preview mask
at `s1` is also included at `s2`: the included area never decreases as
the slider grows. -/
theorem slider_monotone_inclusion (s1 s2 : ℚ) (h0 : 0 ≤ s1) (h12 : s1 ≤ s2)
    (h2 : s2 ≤ 100) (raw : Mask) (x y : ℕ)
    (hin : (updateMaskThresholdMask raw (sliderToWholeThreshold s1)).px x y = 255) :
    (updateMaskThresholdMask raw (sliderToWholeThreshold s2)).px x y = 255 := by
  have hmono : sliderToWholeThreshold s2 ≤ sliderToWholeThreshold s1 := by
    unfold sliderToWholeThreshold
    rw [pyInt_eq_floor _ (wholeFormula_nonneg s1 (h12.trans h2)),
      pyInt_eq_floor _ (wholeFormula_nonneg s2 h2)]
    exact Int.floor_le_floor (by nlinarith)
  rw [updateMaskThresholdMask_px_iff] at hin ⊢
  exact lt_of_le_of_lt hmono hin

/-- Witness for `slider_monotone_inclusion`: a raw pixel of 200 included
at `s1 = 30` stays included at `s2 = 70`. -/
theorem slider_monotone_inclusion_witness :
    (updateMaskThresholdMask ⟨1, 1, fun _ _ => 200⟩
      (sliderToWholeThreshold 30)).px 0 0 = 255 ∧
    (updateMaskThresholdMask ⟨1, 1, fun _ _ => 200⟩
      (sliderToWholeThreshold 70)).px 0 0 = 255 := by
  have h30 : (updateMaskThresholdMask ⟨1, 1, fun _ _ => 200⟩
      (sliderToWholeThreshold 30)).px 0 0 = 255 := by
    unfold updateMaskThresholdMask sliderToWholeThreshold pyInt
    norm_num
  exact ⟨h30, slider_monotone_inclusion 30 70 (by norm_num) (by norm_num)
    (by norm_num) ⟨1, 1, fun _ _ => 200⟩ 0 0 h30⟩

/-! ## Further PIL primitives used by the mask pipeline -/

/-- PIL `base.paste(m, (l, t, l + m.w, t + m.h))` into an all-zero full-size
mask (`temp_fullsize_mask` in `_apply_mask_modification`): the preview
placed at offset `(l, t)`, zero elsewhere.  PIL raises `ValueError`
when the 4-tuple box size differs from `m`'s size; the caller models
that separately, so here the box always matches. -/
def pasteZero (m : Mask) (l t : ℤ) (W H : ℕ) : Mask :=
  ⟨W, H, fun x y =>
    if l ≤ (x : ℤ) ∧ (x : ℤ) < l + m.w ∧ t ≤ (y : ℤ) ∧ (y : ℤ) < t + m.h then
      m.px ((x : ℤ) - l).toNat ((y : ℤ) - t).toNat
    else 0⟩

/-- PIL `img.crop((l, t, l + w, t + h))`: PIL always returns a `(w, h)`
image, reading 0 outside the source bounds. -/
def pilCrop (m : Mask) (l t : ℤ) (w h : ℕ) : Mask :=
  ⟨w, h, fun x y =>
    if 0 ≤ l + (x : ℤ) ∧ l + (x : ℤ) < m.w ∧ 0 ≤ t + (y : ℤ) ∧ t + (y : ℤ) < m.h then
      m.px (l + (x : ℤ)).toNat (t + (y : ℤ)).toNat
    else 0⟩

/-- PIL `img.resize((w, h))`: a `(w, h)` image sampling the source (the
resample kernel is abstracted as index scaling; every claim below uses
only the output dimensions). -/
def pilResize (m : Mask) (w h : ℕ) : Mask :=
  ⟨w, h, fun x y => m.px (x * m.w / w) (y * m.h / h)⟩

/-- A rational-valued map (SAM's logit plane `masks[0, 0, :, :]`,
sized to the original image after the inverse affine warp). -/
structure QMap where
  w : ℕ
  h : ℕ
  val : ℕ → ℕ → ℚ

/-- Source `update_sam_threshold`, binarization step: the full-image binary
mask `mask_binary[current_mask > threshold] = 255` (converted to `L`). -/
def samFullMask (logits : QMap) (threshold : ℚ) : Mask :=
  ⟨logits.w, logits.h, fun x y => samBinaryPixel (logits.val x y) threshold⟩

/-- One stored paint segment `(x1, y1, x2, y2, size)`; coordinates are
kept in image space, `size` in canvas pixels (divided by the zoom at
rasterization time). -/
structure PaintLine where
  x1 : ℚ
  y1 : ℚ
  x2 : ℚ
  y2 : ℚ
  size : ℚ

/-- Squared distance from `(px, py)` to the segment
`(x1,y1)–(x2,y2)` (clamped projection). -/
def segDistSq (x1 y1 x2 y2 px py : ℚ) : ℚ :=
  let dx := x2 - x1
  let dy := y2 - y1
  let L := dx * dx + dy * dy
  if L = 0 then (px - x1) ^ 2 + (py - y1) ^ 2
  else
    let u := max 0 (min 1 (((px - x1) * dx + (py - y1) * dy) / L))
    (px - (x1 + u * dx)) ^ 2 + (py - (y1 + u * dy)) ^ 2

/-! ## Document state (the mask/history/cache side of the GUI object)

The two caches are modelled by their provenance: the stored pixels are
a deterministic function of the working mask (and the radius, tracked
separately in `_last_shadow_radius` exactly as the source does), so an
entry records which working mask it was computed from. -/

inductive BgMode where
  | transparent
  | color
  | blur
deriving DecidableEq

inductive StatusMsg where
  | ready
  | warnNoMask
  | maskApplied
  | errorApplyingMask
  | undoPerformed
  | redoPerformed
  | nothingToRedo
deriving DecidableEq

structure DocState where
  workingMask : Mask
  /-- `undo_history_mask`, newest first (the Python list reversed). -/
  undoHist : List Mask
  /-- `redo_history_mask`, newest first. -/
  redoHist : List Mask
  modelOutputMask : Option Mask
  paintMode : Bool
  viewX : ℚ
  viewY : ℚ
  zoomFactor : ℚ
  origCropW : ℕ
  origCropH : ℕ
  lines : List PaintLine
  cachedBlurredShadow : Option Mask
  lastShadowRadius : Option ℤ
  cachedBlurImage : Option Mask
  bgMode : BgMode
  enableShadow : Bool
  shadowRadius : ℤ
  status : StatusMsg

def UNDO_STEPS : ℕ := 20

/-- Source `add_undo_step`: append a copy of the working mask, evict the
oldest entry past `UNDO_STEPS`, clear the redo stack. -/
def addUndoStep (s : DocState) : DocState :=
  let l := s.workingMask :: s.undoHist
  { s with undoHist := if UNDO_STEPS < l.length then l.dropLast else l
           redoHist := [] }

/-- Source `regenerate_smart_blur`: recompute `cached_blur_image` from the
current working mask (provenance model). -/
def regenerateSmartBlur (s : DocState) : DocState :=
  { s with cachedBlurImage := some s.workingMask }

/-- Source `generate_paint_mode_mask`: rasterize the stored segments, with
width `size / zoom_factor` and round caps (the endpoint ellipses of
radius `scaled_size / 2` make the stroke exactly the set of points
within `scaled_size / 2` of the segment), into a crop-sized mask. -/
def generatePaintModeMask (s : DocState) : Mask :=
  ⟨s.origCropW, s.origCropH, fun x y =>
    if s.lines.any (fun ln =>
        decide (segDistSq ln.x1 ln.y1 ln.x2 ln.y2 (x : ℚ) (y : ℚ) ≤
          (ln.size / s.zoomFactor / 2) ^ 2)) then 255 else 0⟩

/-- Source `update_sam_threshold`, crop branch: the full binary mask cropped
to the current viewport rectangle
`(int(view_x), int(view_y), int(view_x) + crop_w, int(view_y) + crop_h)`. -/
def updateSamThresholdMask (s : DocState) (logits : QMap) (threshold : ℚ) : Mask :=
  pilCrop (samFullMask logits threshold) (pyInt s.viewX) (pyInt s.viewY)
    s.origCropW s.origCropH

/-- Source `update_sam_threshold`, fallback branch: resize the full binary
mask to the crop's pixel dimensions when the crop fails. -/
def updateSamThresholdFallback (s : DocState) (logits : QMap) (threshold : ℚ) : Mask :=
  pilResize (samFullMask logits threshold) s.origCropW s.origCropH

/-- Source `add_drop_shadow`, cache-control portion: if the shadow is enabled,
reuse `cached_blurred_shadow` when `_last_shadow_radius` equals the
current radius, otherwise re-blur the current working mask and store
it; `_last_shadow_radius` is updated to the current radius.  (When the
shadow is disabled the function only re-cuts and refreshes the
preview.) -/
def addDropShadowState (s : DocState) : DocState :=
  if s.enableShadow then
    let cached := if s.lastShadowRadius = some s.shadowRadius then
      s.cachedBlurredShadow else none
    { s with cachedBlurredShadow := some (cached.getD s.workingMask)
             lastShadowRadius := some s.shadowRadius }
  else s

/-- The provenance of the blurred alpha (`blurred_alpha = cached`) that
`add_drop_shadow` composites underneath the cut-out: `none` when the
shadow is disabled. -/
def addDropShadowUsedMask (s : DocState) : Option Mask :=
  if s.enableShadow then
    some ((if s.lastShadowRadius = some s.shadowRadius then
      s.cachedBlurredShadow else none).getD s.workingMask)
  else none

/-- The history-pop core of `undo()` (lines 2832–2835): move the top of
the undo stack to the redo stack and restore the new top. -/
def historyRestorePrev (s : DocState) : DocState :=
  match s.undoHist with
  | cur :: prev :: rest =>
      { s with workingMask := prev
               undoHist := prev :: rest
               redoHist := cur :: s.redoHist }
  | _ => s

/-- Source `undo()`: no-op unless more than one history entry remains; then
pop, regenerate the smart blur when the background mode is "blur", and
run `add_drop_shadow` (which refreshes the composite). -/
def undoState (s : DocState) : DocState :=
  if 1 < s.undoHist.length then
    let s1 := historyRestorePrev s
    let s2 := if s1.bgMode = BgMode.blur then regenerateSmartBlur s1 else s1
    { addDropShadowState s2 with status := StatusMsg.undoPerformed }
  else s

/-- Source `redo()`: no-op (with a status message) when the redo stack is
empty; otherwise push the next state back onto the undo stack and
restore it, with the same downstream recomputation as `undo()`. -/
def redoState (s : DocState) : DocState :=
  match s.redoHist with
  | next :: rest =>
      let s1 := { s with workingMask := next
                         undoHist := next :: s.undoHist
                         redoHist := rest }
      let s2 := if s1.bgMode = BgMode.blur then regenerateSmartBlur s1 else s1
      { addDropShadowState s2 with status := StatusMsg.redoPerformed }
  | [] => { s with status := StatusMsg.nothingToRedo }

/-- Source `copy_entire_image`: set the working mask to all-255, push an undo
step, rebuild the shadowed composite. -/
def copyEntireImage (s : DocState) : DocState :=
  addDropShadowState
    (addUndoStep { s with workingMask := fullMask s.workingMask.w s.workingMask.h })

/-- Source `clear_working_image`: reset the mask to all-zero, push an undo
step, and drop both caches (`delattr cached_blurred_shadow`,
`cached_blur_image = None`). -/
def clearWorkingImage (s : DocState) : DocState :=
  let s1 := addUndoStep { s with workingMask := zeroMask s.workingMask.w s.workingMask.h }
  { s1 with cachedBlurredShadow := none
            cachedBlurImage := none }

/-- Source `_apply_mask_modification(operation)`: choose the preview (paint
rasterization in paint mode, else `model_output_mask`); warn and abort
when it is `None`; paste it into a full-size zero mask at the viewport
box (PIL raises — caught by the `except`, which only sets an error
status — iff the preview size differs from the box size, i.e. from the
crop size); combine with the working mask; push an undo step; drop the
shadow cache; regenerate the smart blur in blur mode; run
`add_drop_shadow`. -/
def applyMaskModification (op : Mask → Mask → Mask) (s : DocState) : DocState :=
  let maskOpt := if s.paintMode then some (generatePaintModeMask s)
    else s.modelOutputMask
  match maskOpt with
  | none => { s with status := StatusMsg.warnNoMask }
  | some m =>
      if m.w = s.origCropW ∧ m.h = s.origCropH then
        let full := pasteZero m (pyInt s.viewX) (pyInt s.viewY)
          s.workingMask.w s.workingMask.h
        let s1 := addUndoStep { s with workingMask := op s.workingMask full }
        let s2 := { s1 with cachedBlurredShadow := none }
        let s3 := if s2.bgMode = BgMode.blur then regenerateSmartBlur s2 else s2
        { addDropShadowState s3 with status := StatusMsg.maskApplied }
      else { s with status := StatusMsg.errorApplyingMask }

def addToWorkingImage (s : DocState) : DocState :=
  applyMaskModification imageChopsAdd s

def subtractFromWorkingImage (s : DocState) : DocState :=
  applyMaskModification imageChopsSubtract s

/-! ### Projection lemmas for the composed operations -/

lemma addDropShadowState_workingMask (s : DocState) :
    (addDropShadowState s).workingMask = s.workingMask := by
  unfold addDropShadowState
  split <;> rfl

lemma addDropShadowState_undoHist (s : DocState) :
    (addDropShadowState s).undoHist = s.undoHist := by
  unfold addDropShadowState
  split <;> rfl

lemma addDropShadowState_redoHist (s : DocState) :
    (addDropShadowState s).redoHist = s.redoHist := by
  unfold addDropShadowState
  split <;> rfl

lemma addDropShadowState_paintMode (s : DocState) :
    (addDropShadowState s).paintMode = s.paintMode := by
  unfold addDropShadowState
  split <;> rfl

lemma addDropShadowState_modelOutputMask (s : DocState) :
    (addDropShadowState s).modelOutputMask = s.modelOutputMask := by
  unfold addDropShadowState
  split <;> rfl

lemma addDropShadowState_viewX (s : DocState) :
    (addDropShadowState s).viewX = s.viewX := by
  unfold addDropShadowState
  split <;> rfl

lemma addDropShadowState_viewY (s : DocState) :
    (addDropShadowState s).viewY = s.viewY := by
  unfold addDropShadowState
  split <;> rfl

lemma addDropShadowState_origCropW (s : DocState) :
    (addDropShadowState s).origCropW = s.origCropW := by
  unfold addDropShadowState
  split <;> rfl

lemma addDropShadowState_origCropH (s : DocState) :
    (addDropShadowState s).origCropH = s.origCropH := by
  unfold addDropShadowState
  split <;> rfl

lemma addDropShadowState_cachedBlurImage (s : DocState) :
    (addDropShadowState s).cachedBlurImage = s.cachedBlurImage := by
  unfold addDropShadowState
  split <;> rfl

lemma iteRegen_workingMask (c : Prop) [Decidable c] (s : DocState) :
    (if c then regenerateSmartBlur s else s).workingMask = s.workingMask := by
  split <;> rfl

lemma iteRegen_undoHist (c : Prop) [Decidable c] (s : DocState) :
    (if c then regenerateSmartBlur s else s).undoHist = s.undoHist := by
  split <;> rfl

lemma iteRegen_redoHist (c : Prop) [Decidable c] (s : DocState) :
    (if c then regenerateSmartBlur s else s).redoHist = s.redoHist := by
  split <;> rfl

lemma iteRegen_paintMode (c : Prop) [Decidable c] (s : DocState) :
    (if c then regenerateSmartBlur s else s).paintMode = s.paintMode := by
  split <;> rfl

lemma iteRegen_modelOutputMask (c : Prop) [Decidable c] (s : DocState) :
    (if c then regenerateSmartBlur s else s).modelOutputMask = s.modelOutputMask := by
  split <;> rfl

lemma iteRegen_viewX (c : Prop) [Decidable c] (s : DocState) :
    (if c then regenerateSmartBlur s else s).viewX = s.viewX := by
  split <;> rfl

lemma iteRegen_viewY (c : Prop) [Decidable c] (s : DocState) :
    (if c then regenerateSmartBlur s else s).viewY = s.viewY := by
  split <;> rfl

lemma iteRegen_origCropW (c : Prop) [Decidable c] (s : DocState) :
    (if c then regenerateSmartBlur s else s).origCropW = s.origCropW := by
  split <;> rfl

lemma iteRegen_origCropH (c : Prop) [Decidable c] (s : DocState) :
    (if c then regenerateSmartBlur s else s).origCropH = s.origCropH := by
  split <;> rfl

/-- The first two entries of the history after a push survive the
oldest-entry eviction. -/
lemma pushShape (m a : Mask) (r : List Mask) :
    ∃ r2 : List Mask,
      (if UNDO_STEPS < (m :: a :: r).length then (m :: a :: r).dropLast
        else (m :: a :: r)) = m :: a :: r2 := by
  by_cases hl : UNDO_STEPS < (m :: a :: r).length
  · rw [if_pos hl]
    cases r with
    | nil => simp [UNDO_STEPS] at hl
    | cons b bs => exact ⟨(b :: bs).dropLast, by simp [List.dropLast]⟩
  · exact ⟨r, by rw [if_neg hl]⟩

/-- Any state whose undo stack starts with the live mask followed by
`a`, with an empty redo stack, undoes to `a` and redoes back. -/
lemma undo_redo_after_push (t : DocState) (a : Mask) (r : List Mask)
    (h2 : t.undoHist = t.workingMask :: a :: r) (h3 : t.redoHist = []) :
    (undoState t).workingMask = a ∧
    (redoState (undoState t)).workingMask = t.workingMask := by
  have hlen : 1 < t.undoHist.length := by
    rw [h2]
    simp
  have hrestore : historyRestorePrev t =
      { t with workingMask := a, undoHist := a :: r,
               redoHist := t.workingMask :: t.redoHist } := by
    unfold historyRestorePrev
    rw [h2]
  have hundo : undoState t =
      { addDropShadowState
          (if (historyRestorePrev t).bgMode = BgMode.blur then
            regenerateSmartBlur (historyRestorePrev t) else historyRestorePrev t)
        with status := StatusMsg.undoPerformed } := by
    unfold undoState
    rw [if_pos hlen]
  have hwm : (undoState t).workingMask = a := by
    rw [hundo]
    show (addDropShadowState _).workingMask = a
    rw [addDropShadowState_workingMask, iteRegen_workingMask, hrestore]
  have hredo : (undoState t).redoHist = t.workingMask :: [] := by
    rw [hundo]
    show (addDropShadowState _).redoHist = _
    rw [addDropShadowState_redoHist, iteRegen_redoHist, hrestore]
    simp [h3]
  refine ⟨hwm, ?_⟩
  unfold redoState
  rw [hredo]
  show (addDropShadowState _).workingMask = t.workingMask
  rw [addDropShadowState_workingMask, iteRegen_workingMask]

/-- When a preview `m` is selected and its size matches the crop,
`_apply_mask_modification` combines it into the working mask, pushes an
undo step, clears the redo stack and leaves the viewport / preview
fields untouched. -/
lemma applyMaskModification_success (op : Mask → Mask → Mask) (s : DocState) (m : Mask)
    (hp : (if s.paintMode then some (generatePaintModeMask s)
      else s.modelOutputMask) = some m)
    (hw : m.w = s.origCropW) (hh : m.h = s.origCropH) :
    (applyMaskModification op s).workingMask =
      op s.workingMask (pasteZero m (pyInt s.viewX) (pyInt s.viewY)
        s.workingMask.w s.workingMask.h) ∧
    (applyMaskModification op s).undoHist =
      (let l := op s.workingMask (pasteZero m (pyInt s.viewX) (pyInt s.viewY)
        s.workingMask.w s.workingMask.h) :: s.undoHist
       if UNDO_STEPS < l.length then l.dropLast else l) ∧
    (applyMaskModification op s).redoHist = [] ∧
    (applyMaskModification op s).paintMode = s.paintMode ∧
    (applyMaskModification op s).modelOutputMask = s.modelOutputMask ∧
    (applyMaskModification op s).viewX = s.viewX ∧
    (applyMaskModification op s).viewY = s.viewY ∧
    (applyMaskModification op s).origCropW = s.origCropW ∧
    (applyMaskModification op s).origCropH = s.origCropH ∧
    (applyMaskModification op s).status = StatusMsg.maskApplied := by
  refine ⟨?_, ?_, ?_, ?_, ?_, ?_, ?_, ?_, ?_, ?_⟩ <;>
    simp [applyMaskModification, hp, hw, hh, addUndoStep,
      addDropShadowState_workingMask, addDropShadowState_undoHist,
      addDropShadowState_redoHist, addDropShadowState_paintMode,
      addDropShadowState_modelOutputMask, addDropShadowState_viewX,
      addDropShadowState_viewY, addDropShadowState_origCropW,
      addDropShadowState_origCropH, iteRegen_workingMask, iteRegen_undoHist,
      iteRegen_redoHist, iteRegen_paintMode, iteRegen_modelOutputMask,
      iteRegen_viewX, iteRegen_viewY, iteRegen_origCropW, iteRegen_origCropH]

/-! ## MaskHistory: undo/redo round trips (C2) -/

/-- A single semantic mutation: add / subtract (covering paint-apply,
which is the same entry point with paint mode on), clear, copy-all. -/
inductive SemMutation where
  | addOp
  | subtractOp
  | clearOp
  | copyAllOp

def applyMutation : SemMutation → DocState → DocState
  | .addOp => addToWorkingImage
  | .subtractOp => subtractFromWorkingImage
  | .clearOp => clearWorkingImage
  | .copyAllOp => copyEntireImage

/-- The mutation actually runs (for add/subtract: a preview exists and
its size matches the crop, so neither the `None` warning nor the paste
`ValueError` aborts it).  Clear and copy-all are unconditional. -/
def mutationOk : SemMutation → DocState → Prop
  | .addOp, s | .subtractOp, s =>
      match (if s.paintMode then some (generatePaintModeMask s)
        else s.modelOutputMask) with
      | some m => m.w = s.origCropW ∧ m.h = s.origCropH
      | none => False
  | .clearOp, _ => True
  | .copyAllOp, _ => True

lemma applyMaskModification_roundtrip (op : Mask → Mask → Mask) (s : DocState)
    (rest : List Mask)
    (hok : match (if s.paintMode then some (generatePaintModeMask s)
        else s.modelOutputMask) with
      | some m => m.w = s.origCropW ∧ m.h = s.origCropH
      | none => False)
    (htop : s.undoHist = s.workingMask :: rest) :
    (undoState (applyMaskModification op s)).workingMask = s.workingMask ∧
    (redoState (undoState (applyMaskModification op s))).workingMask =
      (applyMaskModification op s).workingMask := by
  cases hp : (if s.paintMode then some (generatePaintModeMask s)
      else s.modelOutputMask) with
  | none => rw [hp] at hok; exact absurd hok not_false
  | some m =>
      rw [hp] at hok
      obtain ⟨hwm, hhist, hredo, _, _, _, _, _, _, _⟩ :=
        applyMaskModification_success op s m hp hok.1 hok.2
      rw [htop] at hhist
      obtain ⟨r2, hr2⟩ := pushShape (op s.workingMask
        (pasteZero m (pyInt s.viewX) (pyInt s.viewY)
          s.workingMask.w s.workingMask.h)) s.workingMask rest
      have hshape : (applyMaskModification op s).undoHist =
          (applyMaskModification op s).workingMask :: s.workingMask :: r2 := by
        rw [hhist, hwm]
        exact hr2
      exact undo_redo_after_push _ _ _ hshape hredo

/-- C2: For every history state whose stack top is the live working
mask (the invariant every reachable state satisfies) and every single
semantic mutation that runs (add, subtract — paint-apply included —
clear, copy-all), `undo()` immediately afterwards restores the working
mask pixel-for-pixel to its pre-mutation value, and `redo()` after that
`undo()` restores the post-mutation value. -/
theorem undo_redo_restores (mu : SemMutation) (s : DocState) (rest : List Mask)
    (hok : mutationOk mu s) (htop : s.undoHist = s.workingMask :: rest) :
    (undoState (applyMutation mu s)).workingMask = s.workingMask ∧
    (redoState (undoState (applyMutation mu s))).workingMask =
      (applyMutation mu s).workingMask := by
  cases mu with
  | addOp => exact applyMaskModification_roundtrip imageChopsAdd s rest hok htop
  | subtractOp => exact applyMaskModification_roundtrip imageChopsSubtract s rest hok htop
  | clearOp =>
      obtain ⟨r2, hr2⟩ := pushShape (zeroMask s.workingMask.w s.workingMask.h)
        s.workingMask rest
      have hshape : (clearWorkingImage s).undoHist =
          (clearWorkingImage s).workingMask :: s.workingMask :: r2 := by
        show (if UNDO_STEPS < (zeroMask s.workingMask.w s.workingMask.h ::
            s.undoHist).length then _ else _) = _
        rw [htop]
        exact hr2
      exact undo_redo_after_push _ _ _ hshape rfl
  | copyAllOp =>
      obtain ⟨r2, hr2⟩ := pushShape (fullMask s.workingMask.w s.workingMask.h)
        s.workingMask rest
      have hshape : (copyEntireImage s).undoHist =
          (copyEntireImage s).workingMask :: s.workingMask :: r2 := by
        show (addDropShadowState _).undoHist = (addDropShadowState _).workingMask :: _
        rw [addDropShadowState_undoHist, addDropShadowState_workingMask]
        show (if UNDO_STEPS < (fullMask s.workingMask.w s.workingMask.h ::
            s.undoHist).length then _ else _) = _
        rw [htop]
        exact hr2
      have hredo : (copyEntireImage s).redoHist = [] := by
        show (addDropShadowState _).redoHist = []
        rw [addDropShadowState_redoHist]
        rfl
      exact undo_redo_after_push _ _ _ hshape hredo

/-! ### Concrete document states used by the witnesses and
counterexamples -/

def mask100 : Mask := ⟨4, 4, fun _ _ => 100⟩

def previewP : Mask := ⟨2, 2, fun _ _ => 50⟩

def baseDoc : DocState :=
  { workingMask := mask100
    undoHist := [mask100]
    redoHist := []
    modelOutputMask := none
    paintMode := false
    viewX := 0
    viewY := 0
    zoomFactor := 1
    origCropW := 2
    origCropH := 2
    lines := []
    cachedBlurredShadow := none
    lastShadowRadius := none
    cachedBlurImage := none
    bgMode := BgMode.transparent
    enableShadow := false
    shadowRadius := 5
    status := StatusMsg.ready }

def docWithPreview : DocState := { baseDoc with modelOutputMask := some previewP }

/-- Witness for `undo_redo_restores`: clearing the concrete document and
undoing restores its 100-valued mask. -/
theorem undo_redo_restores_witness :
    mutationOk SemMutation.clearOp baseDoc ∧
    baseDoc.undoHist = baseDoc.workingMask :: [] ∧
    (undoState (applyMutation SemMutation.clearOp baseDoc)).workingMask =
      baseDoc.workingMask ∧
    (redoState (undoState (applyMutation SemMutation.clearOp baseDoc))).workingMask =
      (applyMutation SemMutation.clearOp baseDoc).workingMask := by
  refine ⟨trivial, rfl, ?_, ?_⟩
  · exact (undo_redo_restores SemMutation.clearOp baseDoc [] trivial rfl).1
  · exact (undo_redo_restores SemMutation.clearOp baseDoc [] trivial rfl).2

/-- C8: Invoking add-to-mask or subtract-from-mask with no generated
preview (`model_output_mask is None`, paint mode off) sets the warning
status and aborts: the working mask, undo history and redo history are
unchanged.  (The embedded operation is a total function — the source
path reaches only the status update, so no exception propagates.) -/
theorem no_preview_add_subtract_aborts (s : DocState)
    (hpm : s.paintMode = false) (hmo : s.modelOutputMask = none) :
    (addToWorkingImage s).workingMask = s.workingMask ∧
    (addToWorkingImage s).undoHist = s.undoHist ∧
    (addToWorkingImage s).redoHist = s.redoHist ∧
    (addToWorkingImage s).status = StatusMsg.warnNoMask ∧
    (subtractFromWorkingImage s).workingMask = s.workingMask ∧
    (subtractFromWorkingImage s).undoHist = s.undoHist ∧
    (subtractFromWorkingImage s).redoHist = s.redoHist ∧
    (subtractFromWorkingImage s).status = StatusMsg.warnNoMask := by
  unfold addToWorkingImage subtractFromWorkingImage applyMaskModification
  rw [hpm]
  simp [hmo]

/-- Witness for `no_preview_add_subtract_aborts` on the concrete
document (which has no preview). -/
theorem no_preview_add_subtract_aborts_witness :
    (addToWorkingImage baseDoc).workingMask = baseDoc.workingMask ∧
    (addToWorkingImage baseDoc).status = StatusMsg.warnNoMask ∧
    (subtractFromWorkingImage baseDoc).undoHist = baseDoc.undoHist :=
  ⟨(no_preview_add_subtract_aborts baseDoc rfl rfl).1,
    (no_preview_add_subtract_aborts baseDoc rfl rfl).2.2.2.1,
    (no_preview_add_subtract_aborts baseDoc rfl rfl).2.2.2.2.2.1⟩

/-- C5: If adding the (pasted) preview to the working mask saturates
no pixel, ADD followed by SUBTRACT with the identical preview returns
the working mask pixel-for-pixel to its original value. -/
theorem add_subtract_inverse (s : DocState) (p : Mask)
    (hpm : s.paintMode = false) (hm : s.modelOutputMask = some p)
    (hw : p.w = s.origCropW) (hh : p.h = s.origCropH)
    (hsat : ∀ x y : ℕ, s.workingMask.px x y +
      (pasteZero p (pyInt s.viewX) (pyInt s.viewY)
        s.workingMask.w s.workingMask.h).px x y ≤ 255) :
    ∀ x y : ℕ,
      (subtractFromWorkingImage (addToWorkingImage s)).workingMask.px x y =
        s.workingMask.px x y := by
  have hp : (if s.paintMode then some (generatePaintModeMask s)
      else s.modelOutputMask) = some p := by
    rw [hpm, hm]
    simp
  obtain ⟨hwm1, _, _, hpm1, hmo1, hvx1, hvy1, hcw1, hch1, _⟩ :=
    applyMaskModification_success imageChopsAdd s p hp hw hh
  have hp2 : (if (applyMaskModification imageChopsAdd s).paintMode then
      some (generatePaintModeMask (applyMaskModification imageChopsAdd s))
      else (applyMaskModification imageChopsAdd s).modelOutputMask) = some p := by
    rw [hpm1, hmo1, hpm, hm]
    simp
  have hw2 : p.w = (applyMaskModification imageChopsAdd s).origCropW := by
    rw [hcw1]
    exact hw
  have hh2 : p.h = (applyMaskModification imageChopsAdd s).origCropH := by
    rw [hch1]
    exact hh
  obtain ⟨hwm2, _, _, _, _, _, _, _, _, _⟩ :=
    applyMaskModification_success imageChopsSubtract
      (applyMaskModification imageChopsAdd s) p hp2 hw2 hh2
  intro x y
  show (applyMaskModification imageChopsSubtract
    (applyMaskModification imageChopsAdd s)).workingMask.px x y = _
  rw [hwm2, hvx1, hvy1, hwm1]
  have hdw : (imageChopsAdd s.workingMask (pasteZero p (pyInt s.viewX)
      (pyInt s.viewY) s.workingMask.w s.workingMask.h)).w = s.workingMask.w := rfl
  have hdh : (imageChopsAdd s.workingMask (pasteZero p (pyInt s.viewX)
      (pyInt s.viewY) s.workingMask.w s.workingMask.h)).h = s.workingMask.h := rfl
  rw [hdw, hdh]
  simp only [imageChopsSubtract, imageChopsAdd]
  rw [min_eq_left (hsat x y)]
  omega

/-- Witness for `add_subtract_inverse`: the concrete 100-valued mask
with a 50-valued 2×2 preview (no saturation) round-trips at pixel
`(0,0)`. -/
theorem add_subtract_inverse_witness :
    (subtractFromWorkingImage (addToWorkingImage docWithPreview)).workingMask.px 0 0
      = 100 := by
  have hsat : ∀ x y : ℕ, docWithPreview.workingMask.px x y +
      (pasteZero previewP (pyInt docWithPreview.viewX) (pyInt docWithPreview.viewY)
        docWithPreview.workingMask.w docWithPreview.workingMask.h).px x y ≤ 255 := by
    intro x y
    simp only [docWithPreview, baseDoc, mask100, previewP, pasteZero]
    split <;> norm_num
  exact add_subtract_inverse docWithPreview previewP rfl rfl rfl rfl hsat 0 0

/-! ## Cache invalidation across undo (C1) -/

def maskPrev : Mask := ⟨1, 1, fun _ _ => 0⟩

def maskCurr : Mask := ⟨1, 1, fun _ _ => 255⟩

/-- A reachable state: two history entries (`maskPrev` then `maskCurr`),
shadow enabled at radius 5 with `cached_blurred_shadow` and
`cached_blur_image` both computed against the current mask `maskCurr`
(e.g. right after the add that produced `maskCurr`, followed by one
`add_drop_shadow` and one blur generation), background mode "color". -/
def staleShadowDoc : DocState :=
  { workingMask := maskCurr
    undoHist := [maskCurr, maskPrev]
    redoHist := []
    modelOutputMask := none
    paintMode := false
    viewX := 0
    viewY := 0
    zoomFactor := 1
    origCropW := 1
    origCropH := 1
    lines := []
    cachedBlurredShadow := some maskCurr
    lastShadowRadius := some 5
    cachedBlurImage := some maskCurr
    bgMode := BgMode.color
    enableShadow := true
    shadowRadius := 5
    status := StatusMsg.ready }

/-- C1, refuted (code bug): `undo()` drops neither cache: after the
undo the working mask is `maskPrev`, yet both `cached_blurred_shadow`
and `cached_blur_image` still hold entries computed against `maskCurr`,
and the `add_drop_shadow` call inside `undo()` (radius unchanged)
composites with the blurred alpha of `maskCurr` — a composite built
from a cache computed against the previous working mask, which the
claim says can never happen. -/
theorem undo_keeps_stale_caches :
    (undoState staleShadowDoc).workingMask = maskPrev ∧
    (undoState staleShadowDoc).cachedBlurredShadow = some maskCurr ∧
    (undoState staleShadowDoc).cachedBlurImage = some maskCurr ∧
    addDropShadowUsedMask (historyRestorePrev staleShadowDoc) = some maskCurr ∧
    maskPrev ≠ maskCurr := by
  refine ⟨?_, ?_, ?_, ?_, ?_⟩
  · simp [undoState, historyRestorePrev, staleShadowDoc, addDropShadowState,
      regenerateSmartBlur]
  · simp [undoState, historyRestorePrev, staleShadowDoc, addDropShadowState,
      regenerateSmartBlur]
  · simp [undoState, historyRestorePrev, staleShadowDoc, addDropShadowState,
      regenerateSmartBlur]
  · simp [addDropShadowUsedMask, historyRestorePrev, staleShadowDoc]
  · intro h
    have := congrArg (fun m => m.px 0 0) h
    simp [maskPrev, maskCurr] at this

/-! ## Preview mask dimensions (C10) -/

def staleRaw : Mask := ⟨50, 50, fun _ _ => 200⟩

/-- A state after: whole-image inference ran when the crop was 50×50,
then the user zoomed (the crop is now 40×40 but `raw_model_mask`
survives), then moved the slider, which rebuilt `model_output_mask`
from the stale raw map. -/
def stalePreviewDoc : DocState :=
  { baseDoc with
    workingMask := ⟨100, 100, fun _ _ => 0⟩
    undoHist := [⟨100, 100, fun _ _ => 0⟩]
    modelOutputMask := some (updateMaskThresholdMask staleRaw 130)
    origCropW := 40
    origCropH := 40 }

/-- C10, refuted as stated: The whole-image thresholded preview has
the raw map's dimensions, not necessarily the current crop's: in
`stalePreviewDoc` the preview is 50×50 while the crop is 40×40, and the
add operation's paste aborts with the error status (mask and history
unchanged) instead of matching the paste box. -/
theorem stale_preview_size_mismatch :
    (updateMaskThresholdMask staleRaw 130).w ≠ stalePreviewDoc.origCropW ∧
    (addToWorkingImage stalePreviewDoc).status = StatusMsg.errorApplyingMask ∧
    (addToWorkingImage stalePreviewDoc).workingMask = stalePreviewDoc.workingMask ∧
    (addToWorkingImage stalePreviewDoc).undoHist = stalePreviewDoc.undoHist := by
  refine ⟨?_, ?_, ?_, ?_⟩ <;>
    simp [addToWorkingImage, applyMaskModification, stalePreviewDoc, baseDoc,
      updateMaskThresholdMask, staleRaw]

/-- C10, amended: The SAM preview (both the crop branch and the
resize fallback) and the paint-stroke preview always have exactly the
current crop's dimensions; the whole-image thresholded preview has the
raw map's dimensions, so it too matches whenever the raw map was
generated from the current crop — and then the paste during
add/subtract matches the paste box and the operation succeeds. -/
theorem preview_mask_dimensions (s : DocState) (logits : QMap) (t : ℚ)
    (raw : Mask) (th : ℤ)
    (hw : raw.w = s.origCropW) (hh : raw.h = s.origCropH)
    (hpm : s.paintMode = false)
    (hmo : s.modelOutputMask = some (updateMaskThresholdMask raw th)) :
    (updateSamThresholdMask s logits t).w = s.origCropW ∧
    (updateSamThresholdMask s logits t).h = s.origCropH ∧
    (updateSamThresholdFallback s logits t).w = s.origCropW ∧
    (updateSamThresholdFallback s logits t).h = s.origCropH ∧
    (generatePaintModeMask s).w = s.origCropW ∧
    (generatePaintModeMask s).h = s.origCropH ∧
    (updateMaskThresholdMask raw th).w = s.origCropW ∧
    (updateMaskThresholdMask raw th).h = s.origCropH ∧
    (addToWorkingImage s).status = StatusMsg.maskApplied ∧
    (subtractFromWorkingImage s).status = StatusMsg.maskApplied := by
  have hp : (if s.paintMode then some (generatePaintModeMask s)
      else s.modelOutputMask) = some (updateMaskThresholdMask raw th) := by
    rw [hpm, hmo]
    simp
  refine ⟨rfl, rfl, rfl, rfl, rfl, rfl, hw, hh, ?_, ?_⟩
  · exact (applyMaskModification_success imageChopsAdd s _ hp hw hh).2.2.2.2.2.2.2.2.2
  · exact (applyMaskModification_success imageChopsSubtract s _ hp hw hh).2.2.2.2.2.2.2.2.2

def freshRaw : Mask := ⟨2, 2, fun _ _ => 200⟩

def freshPreviewDoc : DocState :=
  { baseDoc with modelOutputMask := some (updateMaskThresholdMask freshRaw 130) }

/-- Witness for `preview_mask_dimensions`: a 2×2 raw map matching the
2×2 crop yields a crop-sized preview and a successful paste. -/
theorem preview_mask_dimensions_witness :
    (generatePaintModeMask freshPreviewDoc).w = freshPreviewDoc.origCropW ∧
    (updateMaskThresholdMask freshRaw 130).w = freshPreviewDoc.origCropW ∧
    (addToWorkingImage freshPreviewDoc).status = StatusMsg.maskApplied := by
  have h := preview_mask_dimensions freshPreviewDoc ⟨4, 4, fun _ _ => 0⟩ 0
    freshRaw 130 rfl rfl rfl rfl
  exact ⟨h.2.2.2.2.1, h.2.2.2.2.2.2.1, h.2.2.2.2.2.2.2.2.1⟩

/-! ## ExportPipeline: the JPG + transparent conflict (C3) -/

inductive ExportFormat where
  | png
  | jpg
  | webp
deriving DecidableEq

/-- The composited image, by provenance. -/
inductive ImgExpr where
  | workingImage
  | solidWhite
  | solidColor
  | blurBackground
  | alphaComposite (bg fg : ImgExpr)
  | convertRGB (img : ImgExpr)
deriving DecidableEq

/-- Source `validate_export_config`: `False` — after showing the floating
error X and the status text "Error: JPG format does not support
transparency." — exactly when the export format is JPG and the
background mode is transparent; `True` otherwise. -/
def validateExportConfig (fmt : ExportFormat) (bg : BgMode) : Bool :=
  match fmt, bg with
  | ExportFormat.jpg, BgMode.transparent => false
  | _, _ => true

/-- Source `apply_background_color`: composite the cut-out over the blurred or
solid background; pass through when transparent. -/
def applyBackgroundColorE : BgMode → ImgExpr → ImgExpr
  | BgMode.blur, img => ImgExpr.alphaComposite ImgExpr.blurBackground img
  | BgMode.color, img => ImgExpr.alphaComposite ImgExpr.solidColor img
  | BgMode.transparent, img => img

/-- Source `quick_save_automatic`: aborts (`none`, no file written) when
`validate_export_config` fails; otherwise composites the background
when not transparent and writes the file (JPG converted to RGB). -/
def quickSaveAutomatic (fmt : ExportFormat) (bg : BgMode) : Option ImgExpr :=
  if validateExportConfig fmt bg then
    let workimg := if bg ≠ BgMode.transparent then
      applyBackgroundColorE bg ImgExpr.workingImage else ImgExpr.workingImage
    some (match fmt with
      | ExportFormat.jpg => ImgExpr.convertRGB workimg
      | _ => workimg)
  else none

/-- Source `save_as_image` with the user-chosen filename extension: aborts
(`none`) when `validate_export_config` fails (before the dialog even
opens); otherwise, when the chosen extension is `.jpg`/`.jpeg` and the
background mode is transparent, force-composites over solid white and
sets the warning status (the returned Bool). -/
def saveAsImage (fmt : ExportFormat) (bg : BgMode) (extIsJpg : Bool) :
    Option (ImgExpr × Bool) :=
  if validateExportConfig fmt bg then
    let workimg := if bg ≠ BgMode.transparent then
      applyBackgroundColorE bg ImgExpr.workingImage else ImgExpr.workingImage
    if extIsJpg then
      if bg = BgMode.transparent then
        some (ImgExpr.convertRGB
          (ImgExpr.alphaComposite ImgExpr.solidWhite workimg), true)
      else some (ImgExpr.convertRGB workimg, false)
    else some (workimg, false)
  else none

/-- C3, refuted as stated: With export format JPG and background
mode transparent, neither save entry point produces a file: both return
before writing anything (`validate_export_config` reports the conflict
and the handlers bail out), so no force-composite over white happens on
this path. -/
theorem jpg_transparent_save_produces_no_file :
    quickSaveAutomatic ExportFormat.jpg BgMode.transparent = none ∧
    saveAsImage ExportFormat.jpg BgMode.transparent true = none ∧
    saveAsImage ExportFormat.jpg BgMode.transparent false = none ∧
    validateExportConfig ExportFormat.jpg BgMode.transparent = false := by
  refine ⟨rfl, rfl, rfl, rfl⟩

/-- C3, amended: The JPG+transparent conflict is reported (the
validation fails, with the error status and floating X) and the save is
aborted with no file produced; the force-composite over solid white
with a warning happens only in the Save-As path, when the configured
format passes validation but the user picks a `.jpg` filename while the
background mode is transparent. -/
theorem export_conflict_behaviour (fmt : ExportFormat)
    (hok : validateExportConfig fmt BgMode.transparent = true) :
    validateExportConfig ExportFormat.jpg BgMode.transparent = false ∧
    quickSaveAutomatic ExportFormat.jpg BgMode.transparent = none ∧
    saveAsImage ExportFormat.jpg BgMode.transparent true = none ∧
    saveAsImage fmt BgMode.transparent true =
      some (ImgExpr.convertRGB
        (ImgExpr.alphaComposite ImgExpr.solidWhite ImgExpr.workingImage), true) := by
  refine ⟨rfl, rfl, rfl, ?_⟩
  unfold saveAsImage
  rw [hok]
  simp

/-- Witness for `export_conflict_behaviour` with PNG configured: saving
as a `.jpg` filename while transparent force-composites over white and
warns. -/
theorem export_conflict_behaviour_witness :
    validateExportConfig ExportFormat.png BgMode.transparent = true ∧
    saveAsImage ExportFormat.png BgMode.transparent true =
      some (ImgExpr.convertRGB
        (ImgExpr.alphaComposite ImgExpr.solidWhite ImgExpr.workingImage), true) :=
  ⟨rfl, (export_conflict_behaviour ExportFormat.png rfl).2.2.2⟩

end BGRemover
